import Mathlib

/-
Verification of the streamthing package (src/index.js) against its
natural-language specification.

The source file contains four variants of the library.  The claims under
verification concern:

  * the persistent-connection server channel of the token variant
    (createServerStream, src/index.js lines 438-524): authentication,
    outbound message queue, watchdog;
  * the client channel of the token variant (createClientStream,
    src/index.js lines 363-424): reconnect scheduling, AbortController
    listener invalidation, disconnect, per-event listener Map;
  * the event-router behaviour of both the Map variant (listeners.set /
    listeners.get) and the socket.on / addEventListener variants;
  * the message handlers (token variant lines 385-398, connection_id
    variant lines 589-620) and their treatment of malformed envelopes;
  * the stateless HTTP send (lines 147-165 and 646-655);
  * the crypto helpers encryptValue / decryptString (lines 20-38);
  * the region table `servers` (lines 328-334).

The embedding is a shallow one: the single-threaded, event-driven runtime
is modelled as a step function on an explicit state record, one step per
handler invocation (handlers run atomically between suspension points).
Network transports, timers, the AES primitive of crypto-js and the host
JSON.parse / JSON.stringify / fetch primitives are external collaborators;
their observable interactions (events delivered, frames passed to
socket.send, HTTP responses) appear as explicit inputs and logs.
-/

/-- A parsed inbound JSON envelope, as the handlers inspect it: the fields
`data.type`, `data.message`, `data.event`, `data.payload`, `data.id` read by
the message handlers.  A field the wire object does not carry is the empty
string (reading an absent JS property yields undefined, which compares
unequal to every string literal the handlers test against). -/
structure JMsg where
  type : String
  message : String
  event : String
  payload : String
  id : String
deriving DecidableEq

/-- An outbound frame passed to socket.send by the server channel: either
the `server-authenticate` envelope sent from the open handler (src/index.js
lines 463-469) or an `emit` envelope built by `send` (lines 512-517). -/
inductive Frame where
  | serverAuthenticate (serverId password : String)
  | emit (event message channel : String)
deriving DecidableEq

/-- An outbound frame passed to socket.send by the token-variant client:
the `authenticate` envelope sent from its open handler (line 402). -/
inductive CFrame where
  | authenticate (token : String)
deriving DecidableEq

/-- WebSocket readyState values. -/
inductive ReadyState where
  | connecting
  | opened
  | closing
  | closed
deriving DecidableEq

/-- WebSocket close(): a no-op unless the socket is connecting or open. -/
def closeRS : ReadyState → ReadyState
  | ReadyState.connecting => ReadyState.closing
  | ReadyState.opened => ReadyState.closing
  | r => r

/-! ### Event router

Two registration disciplines occur in the source.  The Map variant
(src/index.js lines 365, 414-416) keeps `listeners : Map` and `receive`
does `listeners.set(event, callback)`; dispatch (lines 392-394) does
`listeners.get(data.event)` and calls the single callback if present.  The
socket.on variant (lines 102-107) and the addEventListener variant (lines
601-608) instead add a new listener on every `receive` call; an inbound
event then invokes every listener registered for its name, in registration
order.  Callbacks are identified by numeric tags; the wire-level name
obfuscation (hashString) is injective on the names used and orthogonal to
registration multiplicity, so names are modelled directly. -/

/-- JS Map.set on an association list: replaces the value of an existing
key in place, otherwise appends the new entry. -/
def mapSet (l : List (String × Nat)) (k : String) (v : Nat) :
    List (String × Nat) :=
  match l with
  | [] => [(k, v)]
  | (k1, v1) :: rest =>
      if k1 = k then (k, v) :: rest else (k1, v1) :: mapSet rest k v

/-- JS Map.get on an association list. -/
def mapGet : List (String × Nat) → String → Option Nat
  | [], _ => none
  | (k1, v1) :: rest, k => if k1 = k then some v1 else mapGet rest k

/-- Dispatch in the Map variant: `const callback = listeners.get(event);
callback && callback(payload)` — the callbacks invoked for one inbound
event (at most one). -/
def mapDispatch (l : List (String × Nat)) (k : String) : List Nat :=
  match mapGet l k with
  | some cb => [cb]
  | none => []

/-- socket.on / addEventListener registration: always adds a listener. -/
def socketOn (l : List (String × Nat)) (k : String) (v : Nat) :
    List (String × Nat) :=
  l ++ [(k, v)]

/-- EventEmitter dispatch: every listener registered for the event fires,
in registration order. -/
def socketEmit (l : List (String × Nat)) (k : String) : List Nat :=
  (l.filter (fun p => p.1 = k)).map (fun p => p.2)

/-! ### Client channel (token variant, src/index.js lines 363-424)

State of one createClientStream object.  `epoch` numbers the transport
generations: connect() aborts the previous AbortController before creating
the new WebSocket, so handlers of generation `e` only run while `e` is the
current epoch and the current controller is not aborted (`armed`).
`pendingReconnects` counts setTimeout(connect, 5000) timers scheduled by
the close handler and not yet fired; the source keeps no handle to them,
so nothing ever cancels one.  `connectCount` counts executions of
connect(); `fired` logs callbacks invoked by dispatch; `sentFrames` logs
frames passed to socket.send. -/
structure ClientState where
  token : String
  epoch : Nat
  armed : Bool
  readyState : ReadyState
  pendingReconnects : Nat
  connectCount : Nat
  listeners : List (String × Nat)
  fired : List Nat
  sentFrames : List CFrame
deriving DecidableEq

/-- connect() of the client (lines 368-409): closes and aborts the previous
transport, makes a fresh AbortController and WebSocket, and arms the new
listeners.  The listener Map, pending timers and logs are untouched. -/
def clientConnect (s : ClientState) : ClientState :=
  { s with epoch := s.epoch + 1, armed := true,
           readyState := ReadyState.connecting,
           connectCount := s.connectCount + 1 }

/-- Socket events deliverable to a client transport instance. -/
inductive CSock where
  | errored
  | msg (d : JMsg)
  | opened
  | closed
deriving DecidableEq

/-- One atomic step of the client object: an API call (receive /
disconnect), the firing of a scheduled reconnect timer, or a socket event
on the current transport. -/
inductive CEvent where
  | receive (event : String) (cb : Nat)
  | disconnect
  | timerFire
  | sock (ev : CSock)
deriving DecidableEq

/-- The client step function.  Socket listeners are registered with
`{ signal: controller.signal }`, so their bodies run only while the current
controller is not aborted (`armed`); the physical readyState transitions of
the socket happen regardless.  `disconnect()` (lines 417-422) aborts the
controller and calls close on the socket; it does not touch
`pendingReconnects` because the source discards the setTimeout handle.
The close handler (lines 406-408) schedules one reconnect timer; the timer
callback runs connect() unconditionally when it fires. -/
def clientHandle (s : ClientState) : CEvent → ClientState
  | CEvent.receive e cb => { s with listeners := mapSet s.listeners e cb }
  | CEvent.disconnect =>
      { s with armed := false, readyState := closeRS s.readyState }
  | CEvent.timerFire =>
      if 0 < s.pendingReconnects then
        clientConnect { s with pendingReconnects := s.pendingReconnects - 1 }
      else s
  | CEvent.sock CSock.errored => s
  | CEvent.sock (CSock.msg d) =>
      if s.armed then
        if d.type = "error" then s
        else if d.type = "message" then
          match mapGet s.listeners d.event with
          | some cb => { s with fired := s.fired ++ [cb] }
          | none => s
        else s
      else s
  | CEvent.sock CSock.opened =>
      if s.armed then
        { s with readyState := ReadyState.opened,
                 sentFrames := s.sentFrames ++ [CFrame.authenticate s.token] }
      else { s with readyState := ReadyState.opened }
  | CEvent.sock CSock.closed =>
      if s.armed then
        { s with readyState := ReadyState.closed,
                 pendingReconnects := s.pendingReconnects + 1 }
      else { s with readyState := ReadyState.closed }

/-- Run a sequence of client steps. -/
def clientRun (s : ClientState) (evs : List CEvent) : ClientState :=
  evs.foldl clientHandle s

/-- Delivery of a socket event raised by the transport of generation
`tag`: its listeners were registered on that generation's controller, which
connect() aborts on supersession, so the event is handled only when `tag`
is still the current epoch. -/
def clientDeliver (s : ClientState) (tag : Nat) (ev : CSock) : ClientState :=
  if tag = s.epoch then clientHandle s (CEvent.sock ev) else s

/-- createClientStream (token variant): builds the object and immediately
runs connect() (line 411). -/
def createClientStream (token : String) : ClientState :=
  clientConnect
    { token := token, epoch := 0, armed := false,
      readyState := ReadyState.closed, pendingReconnects := 0,
      connectCount := 0, listeners := [], fired := [], sentFrames := [] }

/-! ### Server channel (persistent variant, src/index.js lines 438-524) -/

/-- State of one createServerStream object: the module-level variables
`socket` (its readyState), `isAuthenticated`, `messageQueue`, plus the
transport generation counter and the log of frames given to socket.send. -/
structure ServerState where
  serverId : String
  password : String
  epoch : Nat
  readyState : ReadyState
  isAuthenticated : Bool
  messageQueue : List Frame
  sent : List Frame
deriving DecidableEq

/-- connect() of the server channel (lines 450-500): aborts the previous
controller, closes the previous socket, clears isAuthenticated, and creates
a fresh WebSocket and AbortController.  `messageQueue` and the send log are
untouched. -/
def serverConnect (s : ServerState) : ServerState :=
  { s with epoch := s.epoch + 1, isAuthenticated := false,
           readyState := ReadyState.connecting }

/-- Socket events deliverable to a server transport instance. -/
inductive SSock where
  | opened
  | msg (d : JMsg)
  | errored
  | closed
deriving DecidableEq

/-- One atomic step of the server object: a send() API call, a watchdog
tick, or a socket event on the current transport. -/
inductive SEvent where
  | apiSend (channel event message : String)
  | watchdogTick
  | sock (ev : SSock)
deriving DecidableEq

/-- The server step function.
send (lines 511-522): builds the emit payload; if the socket exists, its
readyState is OPEN and isAuthenticated holds, passes it to socket.send,
otherwise pushes it on messageQueue.
The open handler (lines 460-472) sends the server-authenticate envelope.
The message handler (lines 474-489) logs `error` envelopes and, on
`server-authenticated`, sets isAuthenticated and drains messageQueue from
the front through socket.send; any other type is ignored.
The close handler (line 497) clears isAuthenticated.
The watchdog (lines 504-508) runs connect() whenever the socket is missing,
not OPEN, or not authenticated (stated here in the contrapositive). -/
def serverHandle (s : ServerState) : SEvent → ServerState
  | SEvent.apiSend channel event message =>
      let payload := Frame.emit event message channel
      if s.readyState = ReadyState.opened ∧ s.isAuthenticated = true then
        { s with sent := s.sent ++ [payload] }
      else
        { s with messageQueue := s.messageQueue ++ [payload] }
  | SEvent.watchdogTick =>
      if s.readyState = ReadyState.opened ∧ s.isAuthenticated = true then s
      else serverConnect s
  | SEvent.sock SSock.opened =>
      { s with readyState := ReadyState.opened,
               sent := s.sent ++
                 [Frame.serverAuthenticate s.serverId s.password] }
  | SEvent.sock (SSock.msg d) =>
      if d.type = "error" then s
      else if d.type = "server-authenticated" then
        { s with isAuthenticated := true,
                 sent := s.sent ++ s.messageQueue,
                 messageQueue := [] }
      else s
  | SEvent.sock SSock.errored => s
  | SEvent.sock SSock.closed =>
      { s with readyState := ReadyState.closed, isAuthenticated := false }

/-- Run a sequence of server steps. -/
def serverRun (s : ServerState) (evs : List SEvent) : ServerState :=
  evs.foldl serverHandle s

/-- Delivery of a socket event raised by the transport of generation `tag`
to the server object; handled only while `tag` is the current epoch, since
connect() aborts the superseded generation's controller. -/
def serverDeliver (s : ServerState) (tag : Nat) (ev : SSock) : ServerState :=
  if tag = s.epoch then serverHandle s (SEvent.sock ev) else s

/-- createServerStream (persistent variant): builds the object and
immediately runs connect() (line 502). -/
def createServerStream (id password : String) : ServerState :=
  serverConnect
    { serverId := id, password := password, epoch := 0,
      readyState := ReadyState.closed, isAuthenticated := false,
      messageQueue := [], sent := [] }

/-- The watchdog interval of the server channel, line 508. -/
def watchdogPeriodMs : Nat := 10000

/-- The reconnect delay of the token-variant client, line 406. -/
def reconnectDelayMs : Nat := 5000

/-- The send() API calls for a list of (channel, event, message) triples. -/
def sendEvents (msgs : List (String × String × String)) : List SEvent :=
  msgs.map (fun t => SEvent.apiSend t.1 t.2.1 t.2.2)

/-- The emit payloads those calls serialize, in call order. -/
def payloadsOf (msgs : List (String × String × String)) : List Frame :=
  msgs.map (fun t => Frame.emit t.2.1 t.2.2 t.1)

/-- The server-authenticated envelope from the relay. -/
def svAuthMsg : JMsg :=
  { type := "server-authenticated", message := "", event := "",
    payload := "", id := "" }

/-! ### Message handlers and malformed envelopes -/

/-- encryptValue (lines 20-25): CryptoJS.AES.encrypt(JSON.stringify(data),
String(encryptionKey)).toString(). -/
def encryptValue {α : Type} (aesEncrypt : String → String → String)
    (stringify : α → String) (data : α) (encryptionKey : String) : String :=
  aesEncrypt (stringify data) encryptionKey

/-- decryptString (lines 33-38): JSON.parse(CryptoJS.AES.decrypt(value,
encryptionKey).toString(CryptoJS.enc.Utf8)). -/
def decryptString {α : Type} (aesDecrypt : String → String → String)
    (parse : String → α) (value : String) (encryptionKey : String) : α :=
  parse (aesDecrypt value encryptionKey)

/-! ### Stateless HTTP send (src/index.js lines 147-165 and 646-655) -/

/-- The body of an HTTP response, classified by whether res.json() accepts
it; for a parseable body the carried string is its serialized form (what
JSON.stringify(data) reproduces for the log line). -/
inductive JsonBody where
  | json (s : String)
  | notJson (s : String)
deriving DecidableEq

/-- res.json(): resolves with the parsed body or rejects. -/
def resJson : JsonBody → Except Unit String
  | JsonBody.json s => Except.ok s
  | JsonBody.notJson _ => Except.error ()

/-- What fetch resolved with: res.ok (status in the 2xx range) and the
body. -/
structure FetchResponse where
  ok : Bool
  body : JsonBody
deriving DecidableEq

/-- Observable trace of one completed stateless send: the JSON bodies of
the HTTP requests it issued, in order (as the field-name/value pairs of
the object literal passed to JSON.stringify), and the console.error lines
emitted. -/
structure StatelessOutcome where
  requests : List (List (String × String))
  logged : List String
deriving DecidableEq

/-- The stateless send of the connection_id variant (POST to
`/emit-message`, src/index.js lines 646-655), given the response its
single fetch call resolved with: it issues exactly one request whose body
carries id, channel, event, message, password; awaits res.json()
unconditionally — before looking at res.ok — so a body that is not JSON
makes the awaited send call reject; and logs the parsed body exactly when
res.ok is false.  No retry path exists in the source. -/
def statelessSendV4 (id channel password event message : String)
    (resp : FetchResponse) : Except Unit StatelessOutcome := do
  let requestBody := [("id", id), ("channel", channel), ("event", event),
                      ("message", message), ("password", password)]
  let data ← resJson resp.body
  if resp.ok then pure { requests := [requestBody], logged := [] }
  else pure { requests := [requestBody],
              logged := ["An error occurred: " ++ data] }

/-- The stateless send of the crypto variant (POST to `/emit-event`,
src/index.js lines 147-165): same control flow — one fetch, res.json()
awaited before the res.ok check, non-2xx logged, no retry — with the msg
field encrypted under the configured key when one is set (JS truthiness:
an absent or empty-string key leaves the message raw). -/
def statelessSendV1 (aesEncrypt : String → String → String)
    (stringify : String → String) (id channel password : String)
    (encryptionKey : Option String) (event msg : String)
    (resp : FetchResponse) : Except Unit StatelessOutcome := do
  let wireMsg := match encryptionKey with
    | some key =>
        if key = "" then msg
        else encryptValue aesEncrypt stringify msg key
    | none => msg
  let requestBody := [("id", id), ("channel", channel), ("event", event),
                      ("msg", wireMsg), ("password", password)]
  let data ← resJson resp.body
  if resp.ok then pure { requests := [requestBody], logged := [] }
  else pure { requests := [requestBody],
              logged := ["An error occurred. Request Body: " ++ data] }

/-! ### Region table (src/index.js lines 328-334) -/

/-- The JS `||` default on the environment override: falsy values (absent
variable or empty string) fall through to the literal. -/
def jsOr (v : Option String) (d : String) : String :=
  match v with
  | none => d
  | some s => if s = "" then d else s

/-- The `servers` table of the token variant: a fixed object with keys usw,
us3, eus (each overridable by STREAMTHING_CUSTOM_HOST); property lookup on
any other key yields undefined (`none`). -/
def servers (customHost : Option String) (region : String) : Option String :=
  if region = "usw" then some (jsOr customHost "wss://usw.streamthing.dev")
  else if region = "us3" then some (jsOr customHost "wss://us3.streamthing.dev")
  else if region = "eus" then some (jsOr customHost "wss://eus.streamthing.dev")
  else none

/-- JS string interpolation of a possibly-undefined value: undefined
renders as the literal text "undefined". -/
def jsInterp : Option String → String
  | none => "undefined"
  | some s => s

/-- The URL the token-variant client constructor passes to new WebSocket
(line 375): built by template interpolation from servers[region] with no
validation of the region. -/
def clientSocketUrl (customHost : Option String) (region id : String) :
    String :=
  jsInterp (servers customHost region) ++ "?id=" ++ id

/-! ### Helper lemmas -/

/-- Demonstration state: transport open and authenticated. -/
def demoOpenAuth : ServerState :=
  { serverId := "srv", password := "pw", epoch := 1,
    readyState := ReadyState.opened, isAuthenticated := true,
    messageQueue := [], sent := [] }

/-- Demonstration state: transport open but never authenticated
(a silently stalled channel). -/
def demoStalled : ServerState :=
  { serverId := "srv", password := "pw", epoch := 1,
    readyState := ReadyState.opened, isAuthenticated := false,
    messageQueue := [], sent := [] }

theorem closeRS_idem (r : ReadyState) : closeRS (closeRS r) = closeRS r := by
  cases r <;> rfl

theorem mapGet_mapSet_self (l : List (String × Nat)) (k : String) (v : Nat) :
    mapGet (mapSet l k v) k = some v := by
  induction l with
  | nil => simp [mapSet, mapGet]
  | cons p rest ih =>
      obtain ⟨k1, v1⟩ := p
      by_cases h : k1 = k
      · simp [mapSet, h, mapGet]
      · simp [mapSet, h, mapGet, ih]

theorem mapGet_mapSet_ne (l : List (String × Nat)) (k kOther : String)
    (v : Nat) (h : kOther ≠ k) :
    mapGet (mapSet l k v) kOther = mapGet l kOther := by
  induction l with
  | nil => simp [mapSet, mapGet, Ne.symm h]
  | cons p rest ih =>
      obtain ⟨k1, v1⟩ := p
      by_cases hk : k1 = k
      · subst hk
        simp [mapSet, mapGet, Ne.symm h]
      · simp [mapSet, hk, mapGet, ih]

theorem socketEmit_socketOn (l : List (String × Nat)) (k : String) (v : Nat) :
    socketEmit (socketOn l k v) k = socketEmit l k ++ [v] := by
  simp [socketEmit, socketOn, List.filter_append]

theorem serverHandle_svAuth (s : ServerState) :
    serverHandle s (SEvent.sock (SSock.msg svAuthMsg))
      = { s with isAuthenticated := true,
                 sent := s.sent ++ s.messageQueue, messageQueue := [] } := by
  simp [serverHandle, svAuthMsg]

theorem serverRun_sendEvents (msgs : List (String × String × String)) :
    ∀ s : ServerState, s.isAuthenticated = false →
      (serverRun s (sendEvents msgs)).messageQueue
          = s.messageQueue ++ payloadsOf msgs
      ∧ (serverRun s (sendEvents msgs)).sent = s.sent
      ∧ (serverRun s (sendEvents msgs)).isAuthenticated = false := by
  induction msgs with
  | nil => intro s h; simp [serverRun, sendEvents, payloadsOf, h]
  | cons t rest ih =>
      intro s h
      have hstep : serverHandle s (SEvent.apiSend t.1 t.2.1 t.2.2)
          = { s with messageQueue :=
                s.messageQueue ++ [Frame.emit t.2.1 t.2.2 t.1] } := by
        simp [serverHandle, h]
      have hrun : serverRun s (sendEvents (t :: rest))
          = serverRun
              { s with messageQueue :=
                  s.messageQueue ++ [Frame.emit t.2.1 t.2.2 t.1] }
              (sendEvents rest) := by
        simp [serverRun, sendEvents, hstep]
      obtain ⟨h1, h2, h3⟩ := ih
        { s with messageQueue :=
            s.messageQueue ++ [Frame.emit t.2.1 t.2.2 t.1] } h
      refine ⟨?_, ?_, ?_⟩
      · rw [hrun, h1]; simp [payloadsOf]
      · rw [hrun, h2]
      · rw [hrun, h3]

theorem clientHandle_epoch_le (s : ClientState) (ev : CEvent) :
    s.epoch ≤ (clientHandle s ev).epoch := by
  cases ev with
  | receive e cb => exact Nat.le_refl _
  | disconnect => exact Nat.le_refl _
  | timerFire =>
      simp only [clientHandle]
      split
      · exact Nat.le_succ _
      · exact Nat.le_refl _
  | sock sev =>
      cases sev with
      | errored => exact Nat.le_refl _
      | msg d =>
          simp only [clientHandle]
          split
          · split
            · exact Nat.le_refl _
            · split
              · split <;> exact Nat.le_refl _
              · exact Nat.le_refl _
          · exact Nat.le_refl _
      | opened =>
          simp only [clientHandle]
          split <;> exact Nat.le_refl _
      | closed =>
          simp only [clientHandle]
          split <;> exact Nat.le_refl _

theorem clientRun_epoch_le (evs : List CEvent) :
    ∀ s : ClientState, s.epoch ≤ (clientRun s evs).epoch := by
  induction evs with
  | nil => intro s; exact Nat.le_refl _
  | cons ev rest ih =>
      intro s
      exact Nat.le_trans (clientHandle_epoch_le s ev) (ih (clientHandle s ev))

theorem serverHandle_epoch_le (s : ServerState) (ev : SEvent) :
    s.epoch ≤ (serverHandle s ev).epoch := by
  cases ev with
  | apiSend c e m =>
      simp only [serverHandle]
      split <;> exact Nat.le_refl _
  | watchdogTick =>
      simp only [serverHandle]
      split
      · exact Nat.le_refl _
      · exact Nat.le_succ _
  | sock sev =>
      cases sev with
      | opened => exact Nat.le_refl _
      | msg d =>
          simp only [serverHandle]
          split
          · exact Nat.le_refl _
          · split <;> exact Nat.le_refl _
      | errored => exact Nat.le_refl _
      | closed => exact Nat.le_refl _

theorem serverRun_epoch_le (evs : List SEvent) :
    ∀ s : ServerState, s.epoch ≤ (serverRun s evs).epoch := by
  induction evs with
  | nil => intro s; exact Nat.le_refl _
  | cons ev rest ih =>
      intro s
      exact Nat.le_trans (serverHandle_epoch_le s ev) (ih (serverHandle s ev))

theorem clientHandle_disconnect_idem (s : ClientState) :
    clientHandle (clientHandle s CEvent.disconnect) CEvent.disconnect
      = clientHandle s CEvent.disconnect := by
  simp [clientHandle, closeRS_idem]

theorem clientHandle_terminal (s : ClientState) (ev : CEvent)
    (ha : s.armed = false) (hp : s.pendingReconnects = 0) :
    (clientHandle s ev).armed = false
    ∧ (clientHandle s ev).pendingReconnects = 0
    ∧ (clientHandle s ev).connectCount = s.connectCount := by
  cases ev with
  | receive e cb => exact ⟨ha, hp, rfl⟩
  | disconnect => exact ⟨rfl, hp, rfl⟩
  | timerFire => simp [clientHandle, hp, ha]
  | sock sev =>
      cases sev with
      | errored => exact ⟨ha, hp, rfl⟩
      | msg d => simp [clientHandle, ha, hp]
      | opened => simp [clientHandle, ha, hp]
      | closed => simp [clientHandle, ha, hp]

theorem clientRun_terminal (evs : List CEvent) :
    ∀ s : ClientState, s.armed = false → s.pendingReconnects = 0 →
      (clientRun s evs).armed = false
      ∧ (clientRun s evs).pendingReconnects = 0
      ∧ (clientRun s evs).connectCount = s.connectCount := by
  induction evs with
  | nil => intro s ha hp; exact ⟨ha, hp, rfl⟩
  | cons ev rest ih =>
      intro s ha hp
      obtain ⟨h1, h2, h3⟩ := clientHandle_terminal s ev ha hp
      obtain ⟨g1, g2, g3⟩ := ih (clientHandle s ev) h1 h2
      exact ⟨g1, g2, g3.trans h3⟩

/-! ### Claim theorems -/

/-- C1: every send() issued on the persistent-connection server channel
before authentication completes (isAuthenticated still false) is appended
to the outbound queue in call order and nothing is given to the transport;
the queue is unchanged by a reconnect (connect() never touches
messageQueue); on receipt of the server-authenticated envelope — and only
then — the whole queue is passed to socket.send in FIFO order and emptied,
so each entry is delivered exactly once (a second server-authenticated
envelope resends nothing), whether or not a reconnect intervened. -/
theorem C1_outbound_queue_fifo (s : ServerState)
    (msgs : List (String × String × String))
    (h : s.isAuthenticated = false) :
    (serverRun s (sendEvents msgs)).messageQueue
        = s.messageQueue ++ payloadsOf msgs
    ∧ (serverRun s (sendEvents msgs)).sent = s.sent
    ∧ (serverConnect (serverRun s (sendEvents msgs))).messageQueue
        = s.messageQueue ++ payloadsOf msgs
    ∧ (serverConnect (serverRun s (sendEvents msgs))).sent = s.sent
    ∧ (serverHandle (serverRun s (sendEvents msgs))
          (SEvent.sock (SSock.msg svAuthMsg))).sent
        = s.sent ++ (s.messageQueue ++ payloadsOf msgs)
    ∧ (serverHandle (serverRun s (sendEvents msgs))
          (SEvent.sock (SSock.msg svAuthMsg))).messageQueue = []
    ∧ (serverHandle (serverConnect (serverRun s (sendEvents msgs)))
          (SEvent.sock (SSock.msg svAuthMsg))).sent
        = s.sent ++ (s.messageQueue ++ payloadsOf msgs)
    ∧ (serverHandle (serverHandle (serverRun s (sendEvents msgs))
          (SEvent.sock (SSock.msg svAuthMsg)))
          (SEvent.sock (SSock.msg svAuthMsg))).sent
        = s.sent ++ (s.messageQueue ++ payloadsOf msgs) := by
  obtain ⟨h1, h2, h3⟩ := serverRun_sendEvents msgs s h
  refine ⟨h1, h2, ?_, ?_, ?_, ?_, ?_, ?_⟩
  · simpa [serverConnect] using h1
  · simpa [serverConnect] using h2
  · rw [serverHandle_svAuth]; simp [h1, h2]
  · rw [serverHandle_svAuth]
  · rw [serverHandle_svAuth]; simp [serverConnect, h1, h2]
  · rw [serverHandle_svAuth, serverHandle_svAuth]; simp [h1, h2]

/-- C1 witness: a fresh channel with two sends queued and then flushed by
the server-authenticated envelope. -/
theorem C1_outbound_queue_fifo_witness :
    (createServerStream "srv" "pw").isAuthenticated = false
    ∧ (serverHandle (serverRun (createServerStream "srv" "pw")
          (sendEvents [("ch", "e1", "m1"), ("ch", "e2", "m2")]))
          (SEvent.sock (SSock.msg svAuthMsg))).sent
        = (createServerStream "srv" "pw").sent
          ++ ((createServerStream "srv" "pw").messageQueue
              ++ payloadsOf [("ch", "e1", "m1"), ("ch", "e2", "m2")]) :=
  ⟨rfl, (C1_outbound_queue_fifo (createServerStream "srv" "pw")
    [("ch", "e1", "m1"), ("ch", "e2", "m2")] rfl).2.2.2.2.1⟩

/-- C2 counterexample: disconnect() is not terminal.  When the transport
has already closed, the close handler has scheduled setTimeout(connect,
5000); disconnect() aborts the controller and calls close, but the source
keeps no handle to the pending timer, so it fires anyway and connect()
runs again: connectCount rises from 1 to 2 after disconnect and the
channel is re-armed on a fresh transport. -/
theorem C2_disconnect_counterexample :
    (clientRun (createClientStream "tok")
        [CEvent.sock CSock.closed, CEvent.disconnect]).connectCount = 1
    ∧ (clientRun (createClientStream "tok")
        [CEvent.sock CSock.closed, CEvent.disconnect,
         CEvent.timerFire]).connectCount = 2
    ∧ (clientRun (createClientStream "tok")
        [CEvent.sock CSock.closed, CEvent.disconnect,
         CEvent.timerFire]).armed = true := by
  refine ⟨rfl, rfl, rfl⟩

/-- C2 amended: disconnect() aborts the current transport's listeners and
closes the transport; it is idempotent as a state transformer (a second
call changes nothing, closing an already-closing/closed socket being a
no-op), and after it no new reconnect is ever scheduled, so provided no
reconnect timer was already pending when disconnect() was called, no
reconnect is ever performed afterwards and the channel stays terminal.  A
reconnect timer already scheduled before disconnect() is, however, not
cancelled (the counterexample). -/
theorem C2_disconnect_amended (s : ClientState) (evs : List CEvent)
    (hp : s.pendingReconnects = 0) :
    clientHandle (clientHandle s CEvent.disconnect) CEvent.disconnect
      = clientHandle s CEvent.disconnect
    ∧ (clientRun (clientHandle s CEvent.disconnect) evs).connectCount
        = s.connectCount
    ∧ (clientRun (clientHandle s CEvent.disconnect) evs).pendingReconnects
        = 0
    ∧ (clientRun (clientHandle s CEvent.disconnect) evs).armed = false := by
  have ha : (clientHandle s CEvent.disconnect).armed = false := rfl
  have hp2 : (clientHandle s CEvent.disconnect).pendingReconnects = 0 := hp
  obtain ⟨g1, g2, g3⟩ := clientRun_terminal evs _ ha hp2
  exact ⟨clientHandle_disconnect_idem s, g3, g2, g1⟩

/-- C2 amended witness: a freshly constructed client (no pending timer) is
disconnected; later socket events and timer ticks never reconnect it. -/
theorem C2_disconnect_amended_witness :
    (createClientStream "tok").pendingReconnects = 0
    ∧ (clientRun (clientHandle (createClientStream "tok") CEvent.disconnect)
        [CEvent.sock CSock.closed, CEvent.timerFire]).connectCount
      = (createClientStream "tok").connectCount :=
  ⟨rfl, (C2_disconnect_amended (createClientStream "tok")
    [CEvent.sock CSock.closed, CEvent.timerFire] rfl).2.1⟩

/-- C3: superseding a connection invalidates the superseded transport's
listeners before the replacement is armed.  Both connect() functions abort
the previous AbortController before constructing the new WebSocket, and
every listener is registered with that controller's signal; in the model,
after connect() bumps the epoch, delivering any socket event tagged with
the superseded epoch — at any later point, whatever else has happened — is
a no-op, for the client channel and the server channel alike. -/
theorem C3_listener_invalidation :
    (∀ (s : ClientState) (evs : List CEvent) (ev : CSock),
        clientDeliver (clientRun (clientConnect s) evs) s.epoch ev
          = clientRun (clientConnect s) evs)
    ∧ (∀ (t : ServerState) (evs : List SEvent) (ev : SSock),
        serverDeliver (serverRun (serverConnect t) evs) t.epoch ev
          = serverRun (serverConnect t) evs) := by
  constructor
  · intro s evs ev
    have h1 : s.epoch < (clientConnect s).epoch := Nat.lt_succ_self _
    have h2 := clientRun_epoch_le evs (clientConnect s)
    have hne : s.epoch ≠ (clientRun (clientConnect s) evs).epoch :=
      Nat.ne_of_lt (Nat.lt_of_lt_of_le h1 h2)
    simp [clientDeliver, hne]
  · intro t evs ev
    have h1 : t.epoch < (serverConnect t).epoch := Nat.lt_succ_self _
    have h2 := serverRun_epoch_le evs (serverConnect t)
    have hne : t.epoch ≠ (serverRun (serverConnect t) evs).epoch :=
      Nat.ne_of_lt (Nat.lt_of_lt_of_le h1 h2)
    simp [serverDeliver, hne]

/-- C4: send() on the persistent-connection server channel either
transmits immediately — when the transport is OPEN and the channel is
authenticated — or appends the serialized payload to the outbound queue,
in both cases leaving the other buffer untouched; the step is a total
function of the state (the call never blocks or fails). -/
theorem C4_send_immediate_or_queued (s : ServerState)
    (channel event message : String) :
    (s.readyState = ReadyState.opened ∧ s.isAuthenticated = true →
        (serverHandle s (SEvent.apiSend channel event message)).sent
            = s.sent ++ [Frame.emit event message channel]
        ∧ (serverHandle s
              (SEvent.apiSend channel event message)).messageQueue
            = s.messageQueue)
    ∧ (¬ (s.readyState = ReadyState.opened ∧ s.isAuthenticated = true) →
        (serverHandle s (SEvent.apiSend channel event message)).messageQueue
            = s.messageQueue ++ [Frame.emit event message channel]
        ∧ (serverHandle s (SEvent.apiSend channel event message)).sent
            = s.sent) := by
  constructor
  · intro h; simp [serverHandle, h]
  · intro h; simp [serverHandle, h]

/-- C4 witness: an open authenticated channel transmits at once; a fresh
(connecting, unauthenticated) channel queues. -/
theorem C4_send_immediate_or_queued_witness :
    ((demoOpenAuth.readyState = ReadyState.opened
        ∧ demoOpenAuth.isAuthenticated = true)
      ∧ (serverHandle demoOpenAuth (SEvent.apiSend "c" "e" "m")).sent
          = demoOpenAuth.sent ++ [Frame.emit "e" "m" "c"])
    ∧ (¬ ((createServerStream "srv" "pw").readyState = ReadyState.opened
          ∧ (createServerStream "srv" "pw").isAuthenticated = true)
      ∧ (serverHandle (createServerStream "srv" "pw")
            (SEvent.apiSend "c" "e" "m")).messageQueue
          = (createServerStream "srv" "pw").messageQueue
            ++ [Frame.emit "e" "m" "c"]) :=
  ⟨⟨⟨rfl, rfl⟩,
    ((C4_send_immediate_or_queued demoOpenAuth "c" "e" "m").1 ⟨rfl, rfl⟩).1⟩,
   ⟨by decide,
    ((C4_send_immediate_or_queued (createServerStream "srv" "pw")
        "c" "e" "m").2 (by decide)).1⟩⟩

/-- C5: the watchdog runs on a fixed 10-second period (setInterval, line
508) and every tick taken while the transport is not OPEN or the channel
is not authenticated performs exactly a connect() cycle (new epoch, fresh
connecting transport, authentication restarted), so a stalled channel is
forced to reconnect by the next tick — within one watchdog period — and is
never left permanently stuck; a tick on a healthy (open and authenticated)
channel changes nothing. -/
theorem C5_watchdog_forces_reconnect :
    watchdogPeriodMs = 10000
    ∧ (∀ s : ServerState,
        ¬ (s.readyState = ReadyState.opened ∧ s.isAuthenticated = true) →
          serverHandle s SEvent.watchdogTick = serverConnect s
          ∧ (serverHandle s SEvent.watchdogTick).epoch = s.epoch + 1
          ∧ (serverHandle s SEvent.watchdogTick).readyState
              = ReadyState.connecting)
    ∧ (∀ s : ServerState,
        s.readyState = ReadyState.opened → s.isAuthenticated = true →
          serverHandle s SEvent.watchdogTick = s) := by
  refine ⟨rfl, ?_, ?_⟩
  · intro s h
    have hc : serverHandle s SEvent.watchdogTick = serverConnect s := by
      simp [serverHandle, h]
    exact ⟨hc, by rw [hc]; rfl, by rw [hc]; rfl⟩
  · intro s h1 h2
    simp [serverHandle, h1, h2]

/-- C5 witness: a channel whose transport opened but never authenticated
is reconnected by the next watchdog tick. -/
theorem C5_watchdog_forces_reconnect_witness :
    (¬ (demoStalled.readyState = ReadyState.opened
        ∧ demoStalled.isAuthenticated = true))
    ∧ serverHandle demoStalled SEvent.watchdogTick
        = serverConnect demoStalled :=
  ⟨by decide,
   (C5_watchdog_forces_reconnect.2.1 demoStalled (by decide)).1⟩

/-- C6 counterexample: the claim fails for the socket.on-based connection
objects (src/index.js lines 102-107; likewise addEventListener, lines
601-608): registering a second callback for an already-bound event name
adds a listener instead of overwriting, and an inbound event for that name
invokes BOTH callbacks, the superseded one first — not only the most
recent one.  (The Map-based object does overwrite: contrast conjunct.) -/
theorem C6_single_binding_counterexample :
    socketEmit (socketOn (socketOn [] "evt" 1) "evt" 2) "evt" = [1, 2]
    ∧ mapDispatch (mapSet (mapSet [] "evt" 1) "evt" 2) "evt" = [2] := by
  exact ⟨rfl, rfl⟩

/-- C6 amended: in the Map-based connection object (listeners.set /
listeners.get, lines 413-416 and 392-394) at most one callback is bound
per event name, the last registration wins, other names are unaffected,
and dispatch invokes exactly the most recent callback; in the socket.on /
addEventListener-based objects, every registration adds a listener and an
inbound event invokes all callbacks registered for its name, in
registration order. -/
theorem C6_single_binding_amended (l : List (String × Nat))
    (k kOther : String) (v w : Nat) :
    mapGet (mapSet (mapSet l k v) k w) k = some w
    ∧ mapDispatch (mapSet l k v) k = [v]
    ∧ (kOther ≠ k → mapGet (mapSet l k v) kOther = mapGet l kOther)
    ∧ socketEmit (socketOn l k v) k = socketEmit l k ++ [v] := by
  refine ⟨mapGet_mapSet_self _ _ _, ?_,
    fun h => mapGet_mapSet_ne l k kOther v h, socketEmit_socketOn l k v⟩
  simp [mapDispatch, mapGet_mapSet_self]

/-- C6 amended witness: a binding for one name leaves another name's
binding unchanged. -/
theorem C6_single_binding_amended_witness :
    (("other" : String) ≠ "evt")
    ∧ mapGet (mapSet [] "evt" 1) "other" = mapGet [] "other" :=
  ⟨by decide,
   (C6_single_binding_amended [] "evt" "other" 1 2).2.2.1 (by decide)⟩

/-- C8 counterexample: the claim fails when a non-2xx response carries a
body res.json() rejects on (e.g. an HTML error page): both stateless sends
await res.json() before checking res.ok, so the awaited send call rejects
instead of completing without throwing — and nothing is logged. -/
theorem C8_publish_failure_counterexample :
    statelessSendV4 "srv" "ch" "pw" "evt" "hello"
        { ok := false,
          body := JsonBody.notJson "upstream 502 page, not JSON" }
      = Except.error ()
    ∧ statelessSendV1 (fun m _ => m) (fun s => s) "srv" "ch" "pw" none
        "evt" "hello"
        { ok := false,
          body := JsonBody.notJson "upstream 502 page, not JSON" }
      = Except.error () :=
  ⟨rfl, rfl⟩

/-- C8 amended: for a stateless-variant send whose HTTP response is
non-2xx with a body res.json() can parse, exactly one request is issued
(carrying id, channel, event, the message and the password — there is no
retry), exactly the parsed response body is logged, and the caller's
awaited call completes without throwing; a 2xx response logs nothing.  A
non-2xx response whose body is not JSON instead makes the awaited call
reject (the counterexample).  Both HTTP variants behave alike. -/
theorem C8_publish_failure_amended
    (id channel password event message bodyText : String) :
    statelessSendV4 id channel password event message
        { ok := false, body := JsonBody.json bodyText }
      = Except.ok
          { requests := [[("id", id), ("channel", channel),
              ("event", event), ("message", message),
              ("password", password)]],
            logged := ["An error occurred: " ++ bodyText] }
    ∧ statelessSendV4 id channel password event message
        { ok := true, body := JsonBody.json bodyText }
      = Except.ok
          { requests := [[("id", id), ("channel", channel),
              ("event", event), ("message", message),
              ("password", password)]],
            logged := [] }
    ∧ statelessSendV1 (fun m _ => m) (fun s => s) id channel password none
        event message { ok := false, body := JsonBody.json bodyText }
      = Except.ok
          { requests := [[("id", id), ("channel", channel),
              ("event", event), ("msg", message),
              ("password", password)]],
            logged := ["An error occurred. Request Body: " ++ bodyText] } :=
  ⟨rfl, rfl, rfl⟩

/-- C9: decryptString(encryptValue(p, k), k) = p for every serializable
payload p and fixed key k.  The AES primitive of crypto-js and the host
JSON codec are out-of-scope black boxes (spec section 1); the hypotheses
are exactly their documented contracts — AES decryption with the
encryption key restores the plaintext, JSON.parse inverts JSON.stringify —
and the repository's composition (stringify, then encrypt; decrypt, then
parse) round-trips under them. -/
theorem C9_payload_roundtrip {α : Type}
    (aesEncrypt aesDecrypt : String → String → String)
    (stringify : α → String) (parse : String → α)
    (hAes : ∀ m k, aesDecrypt (aesEncrypt m k) k = m)
    (hJson : ∀ v, parse (stringify v) = v)
    (payload : α) (key : String) :
    decryptString aesDecrypt parse
        (encryptValue aesEncrypt stringify payload key) key = payload := by
  simp [decryptString, encryptValue, hAes, hJson]

/-- C9 witness: a concrete instantiation of the primitives satisfying the
contracts, round-tripping a concrete payload. -/
theorem C9_payload_roundtrip_witness :
    decryptString (fun c _ => c) (fun s => s)
        (encryptValue (fun m _ => m) (fun s => s) "hello" "key") "key"
      = "hello" :=
  C9_payload_roundtrip (fun m _ => m) (fun c _ => c) (fun s => s)
    (fun s => s) (fun _ _ => rfl) (fun _ => rfl) "hello" "key"

/-- C10: the stream constructors perform no validation of the region: for
any region outside the fixed table (usw, us3, eus), property lookup on the
servers object yields undefined, and the client constructor proceeds to
interpolate it into the WebSocket URL — connecting to the literal
"undefined?id=..." — instead of failing with a clear error. -/
theorem C10_region_lookup (customHost : Option String) (region id : String)
    (h1 : region ≠ "usw") (h2 : region ≠ "us3") (h3 : region ≠ "eus") :
    servers customHost region = none
    ∧ clientSocketUrl customHost region id = "undefined?id=" ++ id := by
  have hs : servers customHost region = none := by
    simp [servers, h1, h2, h3]
  refine ⟨hs, ?_⟩
  rw [clientSocketUrl, hs]
  rfl

/-- C10 witness: the unknown region "mars" yields an undefined endpoint
and the literal undefined URL. -/
theorem C10_region_lookup_witness :
    (("mars" : String) ≠ "usw")
    ∧ servers none "mars" = none
    ∧ clientSocketUrl none "mars" "client1" = "undefined?id=" ++ "client1" :=
  ⟨by decide,
   (C10_region_lookup none "mars" "client1"
      (by decide) (by decide) (by decide)).1,
   (C10_region_lookup none "mars" "client1"
      (by decide) (by decide) (by decide)).2⟩
